import Mathlib

/-!
Verification of the account/session authorization layer and the
order-fulfillment workflow of the storefront application.

The embedding mirrors the TypeScript source:
* `src/pages/AdminPage.tsx` — `handleUpdateOrderStatus`, `handleAddProduct`,
  the admin data-fetch effect and `statusOptions`;
* `src/App.tsx` — `ProtectedRoute`, `AdminRoute` and the `/auth` route element;
* `src/pages/AuthPage.tsx` — `signupSchema`, `loginSchema`, `handleSubmit`.

TypeScript runtime conventions carried into the model: status tokens are
plain strings (the `as Order['status']` cast is unchecked at runtime), JS
truthiness makes the empty string and the number 0 falsy, and the external
record-store / notification calls may each fail independently, so their
outcomes are explicit parameters of the embedded handlers.  Each handler
returns, besides its data result, the ordered list of external calls it
dispatched, so temporal claims become statements about those traces.
-/

namespace Storefront

/-- The seven selectable status tokens (`statusOptions`, AdminPage.tsx line 66). -/
def statusOptions : List String :=
  ["pending", "confirmed", "processing", "packed", "shipped", "delivered", "cancelled"]

/-- The status tokens of the `Order` interface's union type
(`AdminPage.tsx` line 48), i.e. the defined status set of the data model. -/
def definedStatuses : List String :=
  ["pending", "confirmed", "processing", "packed", "shipped", "delivered", "cancelled"]

/-- `ShippingAddress` (AdminPage.tsx lines 36–43): every field optional. -/
structure ShippingAddress where
  fullName : Option String
  address : Option String
  city : Option String
  state : Option String
  pincode : Option String
  phone : Option String
deriving Repr, DecidableEq

/-- The `Order` record (AdminPage.tsx lines 45–54).  `total_amount` is a
decimal in the source; the claims only concern its preservation, so it is
modelled as `Int`.  `status` is a `String` because at runtime the union
type is an unchecked cast. -/
structure Order where
  id : String
  user_id : String
  status : String
  total_amount : Int
  shipping_address : ShippingAddress
  tracking_number : Option String
  notes : Option String
  created_at : String
deriving Repr, DecidableEq

/-- JS truthiness of an optional string argument: `undefined` and `''` are
falsy, every other string is truthy. -/
def truthy : Option String → Bool
  | none => false
  | some s => !(s == "")

/-- The partial update payload built by `handleUpdateOrderStatus`
(AdminPage.tsx lines 200–203): always carries `status`; carries
`tracking_number` only when the `trackingNumber` argument is truthy. -/
structure OrderUpdate where
  status : String
  tracking_number : Option String
deriving Repr, DecidableEq

def mkUpdateData (status : String) (trackingNumber : Option String) : OrderUpdate :=
  { status := status
    tracking_number := if truthy trackingNumber then trackingNumber else none }

/-- Record-store semantics of a partial `update`: only the columns present
in the payload are overwritten; absent columns keep their stored value. -/
def applyUpdate (o : Order) (u : OrderUpdate) : Order :=
  { o with
    status := u.status
    tracking_number :=
      match u.tracking_number with
      | some t => some t
      | none => o.tracking_number }

/-- `update(updateData).eq('id', orderId)` over the orders table. -/
def updateOrders (db : List Order) (orderId : String) (u : OrderUpdate) : List Order :=
  db.map fun o => if o.id == orderId then applyUpdate o u else o

/-- External calls dispatched by `handleUpdateOrderStatus`, in order. -/
inductive Event
  | writeStatus (orderId : String) (upd : OrderUpdate)
  | selectOrders
  | notify (orderId : String) (newStatus : String) (trackingNumber : Option String)
deriving Repr, DecidableEq

/-- Toasts shown to the administrator. -/
inductive Toast
  | success (msg : String)
  | error (msg : String)
deriving Repr, DecidableEq

/-- Outcome of the notification invoke: resolved without error flag,
resolved with `response.error` set, or rejected (caught by the
`try`/`catch`). -/
inductive NotifyOutcome
  | ok
  | errFlag
  | thrown
deriving Repr, DecidableEq

structure TransitionResult where
  db : List Order
  events : List Event
  toasts : List Toast
deriving Repr, DecidableEq

/-- `handleUpdateOrderStatus` (AdminPage.tsx lines 199–237).  `writeFails`
is whether the record-store update returned an error; `nout` is the
outcome of the notification invoke (only reached when the write
succeeded). -/
def handleUpdateOrderStatus (db : List Order) (orderId : String) (status : String)
    (trackingNumber : Option String) (writeFails : Bool) (nout : NotifyOutcome) :
    TransitionResult :=
  let updateData := mkUpdateData status trackingNumber
  if writeFails then
    { db := db
      events := [.writeStatus orderId updateData]
      toasts := [.error "Failed to update order"] }
  else
    let db' := updateOrders db orderId updateData
    let notifyTracking := if truthy trackingNumber then trackingNumber else none
    let events : List Event :=
      [.writeStatus orderId updateData, .selectOrders,
       .notify orderId status notifyTracking]
    match nout with
    | .ok =>
        { db := db', events := events
          toasts := [.success "Order updated successfully",
                     .success "Customer notified via email"] }
    | .errFlag =>
        { db := db', events := events
          toasts := [.success "Order updated successfully",
                     .error "Order updated but email notification failed"] }
    | .thrown =>
        { db := db', events := events
          toasts := [.success "Order updated successfully"] }

def Event.isNotify : Event → Bool
  | .notify _ _ _ => true
  | _ => false

def Event.isWrite : Event → Bool
  | .writeStatus _ _ => true
  | _ => false

def notifyCount (evs : List Event) : Nat := (evs.filter Event.isNotify).length

def writeCount (evs : List Event) : Nat := (evs.filter Event.isWrite).length

/-- `true` iff every notification event in the trace is strictly preceded
by a status-write event. -/
def writePrecedesNotifyAux : Bool → List Event → Bool
  | _, [] => true
  | _, .writeStatus _ _ :: rest => writePrecedesNotifyAux true rest
  | seenWrite, .selectOrders :: rest => writePrecedesNotifyAux seenWrite rest
  | seenWrite, .notify _ _ _ :: rest => seenWrite && writePrecedesNotifyAux seenWrite rest

def writePrecedesNotify (evs : List Event) : Bool := writePrecedesNotifyAux false evs

/-- Sample shipping address for concrete evaluations. -/
def sampleAddress : ShippingAddress :=
  { fullName := some "Asha", address := some "1 Farm Lane", city := some "Pune"
    state := some "MH", pincode := some "411001", phone := some "9999999999" }

/-- Sample persisted order for concrete evaluations. -/
def sampleOrder : Order :=
  { id := "o1", user_id := "u1", status := "pending", total_amount := 100
    shipping_address := sampleAddress, tracking_number := some "T123"
    notes := none, created_at := "2024-01-01" }

theorem applyUpdate_tracking_none (o : Order) (u : OrderUpdate)
    (h : u.tracking_number = none) :
    (applyUpdate o u).tracking_number = o.tracking_number := by
  simp [applyUpdate, h]

theorem applyUpdate_total_amount (o : Order) (u : OrderUpdate) :
    (applyUpdate o u).total_amount = o.total_amount := rfl

theorem getElem?_updateOrders {α : Type} (f : Order → α) (u : OrderUpdate)
    (hf : ∀ o, f (applyUpdate o u) = f o)
    (db : List Order) (orderId : String) (i : Nat) :
    ((updateOrders db orderId u)[i]?).map f = (db[i]?).map f := by
  simp only [updateOrders, List.getElem?_map]
  cases db[i]? with
  | none => rfl
  | some o =>
      by_cases h : o.id = orderId
      · simp [h, hf]
      · simp [h]

end Storefront

namespace Storefront

/-- C1: in every transition call the status write strictly precedes any
notification attempt; a failed write yields zero notification attempts,
and a successful call makes at most one notification attempt. -/
theorem transition_write_precedes_notify (db : List Order) (orderId status : String)
    (tn : Option String) (nout : NotifyOutcome) :
    writePrecedesNotify (handleUpdateOrderStatus db orderId status tn false nout).events = true
    ∧ writePrecedesNotify (handleUpdateOrderStatus db orderId status tn true nout).events = true
    ∧ notifyCount (handleUpdateOrderStatus db orderId status tn true nout).events = 0
    ∧ notifyCount (handleUpdateOrderStatus db orderId status tn false nout).events ≤ 1 := by
  cases nout <;>
    simp [handleUpdateOrderStatus, writePrecedesNotify, writePrecedesNotifyAux,
      notifyCount, Event.isNotify, List.filter]

/-- C2: when the status write succeeds and the notification fails (error
flag or thrown), the committed update is kept (no rollback), no second
write or notification is dispatched (no retry), and the failure surfaces
only as the non-fatal "order updated, message not delivered" toast next to
the success toast of the already-committed update. -/
theorem notification_failure_isolated (db : List Order) (orderId status : String)
    (tn : Option String) :
    (handleUpdateOrderStatus db orderId status tn false .errFlag).db
        = updateOrders db orderId (mkUpdateData status tn)
    ∧ (handleUpdateOrderStatus db orderId status tn false .thrown).db
        = updateOrders db orderId (mkUpdateData status tn)
    ∧ writeCount (handleUpdateOrderStatus db orderId status tn false .errFlag).events = 1
    ∧ writeCount (handleUpdateOrderStatus db orderId status tn false .thrown).events = 1
    ∧ notifyCount (handleUpdateOrderStatus db orderId status tn false .errFlag).events = 1
    ∧ notifyCount (handleUpdateOrderStatus db orderId status tn false .thrown).events = 1
    ∧ (handleUpdateOrderStatus db orderId status tn false .errFlag).toasts
        = [.success "Order updated successfully",
           .error "Order updated but email notification failed"] := by
  simp [handleUpdateOrderStatus, writeCount, notifyCount, Event.isWrite, Event.isNotify,
    List.filter]

/-- C3: a transition call whose tracking-number argument is absent or the
empty string (falsy) leaves every stored order's `tracking_number`
unchanged: the update payload is a partial patch that omits the column. -/
theorem transition_tracking_unchanged_when_absent (db : List Order)
    (orderId status : String) (tn : Option String) (wf : Bool)
    (nout : NotifyOutcome) (i : Nat) (h : truthy tn = false) :
    (((handleUpdateOrderStatus db orderId status tn wf nout).db)[i]?).map Order.tracking_number
      = (db[i]?).map Order.tracking_number := by
  have hu : (mkUpdateData status tn).tracking_number = none := by
    simp [mkUpdateData, h]
  cases wf with
  | true => cases nout <;> simp [handleUpdateOrderStatus]
  | false =>
      have hdb : (handleUpdateOrderStatus db orderId status tn false nout).db
          = updateOrders db orderId (mkUpdateData status tn) := by
        cases nout <;> simp [handleUpdateOrderStatus]
      rw [hdb]
      exact getElem?_updateOrders Order.tracking_number (mkUpdateData status tn)
        (fun o => applyUpdate_tracking_none o (mkUpdateData status tn) hu) db orderId i

/-- Witness for C3 at a concrete order and an absent tracking argument. -/
theorem transition_tracking_unchanged_witness :
    truthy none = false
    ∧ (((handleUpdateOrderStatus [sampleOrder] "o1" "shipped" none false .ok).db)[0]?).map
        Order.tracking_number = (([sampleOrder] : List Order)[0]?).map Order.tracking_number :=
  ⟨by decide,
   transition_tracking_unchanged_when_absent [sampleOrder] "o1" "shipped" none false .ok 0
     (by decide)⟩

/-- C4: a transition call never changes an order's `total_amount` — nor
any field other than `status` and `tracking_number`: the update payload
carries only those two columns. -/
theorem transition_preserves_total_amount (db : List Order) (orderId status : String)
    (tn : Option String) (wf : Bool) (nout : NotifyOutcome) (i : Nat) :
    (((handleUpdateOrderStatus db orderId status tn wf nout).db)[i]?).map Order.total_amount
        = (db[i]?).map Order.total_amount
    ∧ (((handleUpdateOrderStatus db orderId status tn wf nout).db)[i]?).map Order.id
        = (db[i]?).map Order.id
    ∧ (((handleUpdateOrderStatus db orderId status tn wf nout).db)[i]?).map Order.user_id
        = (db[i]?).map Order.user_id
    ∧ (((handleUpdateOrderStatus db orderId status tn wf nout).db)[i]?).map Order.shipping_address
        = (db[i]?).map Order.shipping_address
    ∧ (((handleUpdateOrderStatus db orderId status tn wf nout).db)[i]?).map Order.notes
        = (db[i]?).map Order.notes
    ∧ (((handleUpdateOrderStatus db orderId status tn wf nout).db)[i]?).map Order.created_at
        = (db[i]?).map Order.created_at := by
  cases wf with
  | true =>
      cases nout <;> simp [handleUpdateOrderStatus]
  | false =>
      have hdb : (handleUpdateOrderStatus db orderId status tn false nout).db
          = updateOrders db orderId (mkUpdateData status tn) := by
        cases nout <;> simp [handleUpdateOrderStatus]
      rw [hdb]
      exact ⟨getElem?_updateOrders Order.total_amount (mkUpdateData status tn)
               (fun o => rfl) db orderId i,
             getElem?_updateOrders Order.id (mkUpdateData status tn)
               (fun o => rfl) db orderId i,
             getElem?_updateOrders Order.user_id (mkUpdateData status tn)
               (fun o => rfl) db orderId i,
             getElem?_updateOrders Order.shipping_address (mkUpdateData status tn)
               (fun o => rfl) db orderId i,
             getElem?_updateOrders Order.notes (mkUpdateData status tn)
               (fun o => rfl) db orderId i,
             getElem?_updateOrders Order.created_at (mkUpdateData status tn)
               (fun o => rfl) db orderId i⟩

/-- Counterexample to C5: the token "rogue" is outside the defined status
set, yet `handleUpdateOrderStatus` attempts the record-store write with it
and, the write succeeding, also attempts the notification — no local
`InvalidStatus` rejection exists. -/
theorem unrecognized_status_not_rejected_cex :
    "rogue" ∉ statusOptions
    ∧ (handleUpdateOrderStatus [sampleOrder] "o1" "rogue" none false .ok).events
        = [.writeStatus "o1" { status := "rogue", tracking_number := none },
           .selectOrders, .notify "o1" "rogue" none]
    ∧ (handleUpdateOrderStatus [sampleOrder] "o1" "rogue" none false .ok).db.map Order.status
        = ["rogue"] := by
  refine ⟨by decide, rfl, rfl⟩

/-- C5 amended: the UI status selector offers exactly the tokens of the
defined status set, but `handleUpdateOrderStatus` itself performs no
status validation: for every token, recognized or not, the first
dispatched call is the record-store write carrying that token, and a
failed write leaves the write attempt as the only external call. -/
theorem unrecognized_status_forwarded (db : List Order) (orderId s : String)
    (tn : Option String) (nout : NotifyOutcome) :
    statusOptions = definedStatuses
    ∧ (handleUpdateOrderStatus db orderId s tn false nout).events.head?
        = some (.writeStatus orderId (mkUpdateData s tn))
    ∧ (handleUpdateOrderStatus db orderId s tn true nout).events
        = [.writeStatus orderId (mkUpdateData s tn)] := by
  cases nout <;> simp [handleUpdateOrderStatus, statusOptions, definedStatuses]

end Storefront

namespace Storefront

/-- The new-product form state (AdminPage.tsx lines 76–85).  `price` and
`stock` are JS numbers; they are modelled as `Int` (the also-falsy `NaN`
has no counterpart here). -/
structure NewProduct where
  name : String
  description : String
  price : Int
  image_url : String
  category : String
  stock : Int
  unit : String
  is_active : Bool
deriving Repr, DecidableEq

/-- External record-store calls dispatched by `handleAddProduct`. -/
inductive StoreCall
  | insertProduct (p : NewProduct)
  | selectProducts
deriving Repr, DecidableEq

/-- `handleAddProduct` (AdminPage.tsx lines 127–155): the guard
`!newProduct.name || !newProduct.price` blocks the insert when the name is
the empty string or the price is the falsy number 0; otherwise the insert
is dispatched and, on success, the product list is refetched. -/
def handleAddProduct (p : NewProduct) (insertFails : Bool) :
    List Toast × List StoreCall :=
  if p.name == "" || p.price == 0 then
    ([.error "Please fill in required fields"], [])
  else if insertFails then
    ([.error "Failed to add product"], [.insertProduct p])
  else
    ([.success "Product added successfully"], [.insertProduct p, .selectProducts])

/-- A syntactically complete product with a negative price. -/
def negPriceProduct : NewProduct :=
  { name := "Urea", description := "50kg bag", price := -5, image_url := ""
    category := "Fertilizers", stock := 10, unit := "kg", is_active := true }

end Storefront

namespace Storefront

/-- Counterexample to C8: at a product with non-empty name and price −5 —
a non-positive price — the guard does not trip: the external insert call
is made and reported successful, so non-positive prices are not rejected
locally. -/
theorem add_product_negative_price_cex :
    negPriceProduct.price ≤ 0
    ∧ negPriceProduct.name ≠ ""
    ∧ (handleAddProduct negPriceProduct false).2
        = [.insertProduct negPriceProduct, .selectProducts]
    ∧ (handleAddProduct negPriceProduct false).1
        = [.success "Product added successfully"] := by
  refine ⟨by decide, by decide, rfl, rfl⟩

/-- C8 amended: a create call with an empty name or a price equal to 0 is
rejected locally before any external record-store call; with a non-empty
name and any non-zero price — positive or negative — the insert is
dispatched: positivity of the price is not enforced. -/
theorem add_product_validation (p : NewProduct) (insertFails : Bool) :
    ((handleAddProduct p insertFails).2.isEmpty = (p.name == "" || p.price == 0))
    ∧ ((handleAddProduct p insertFails).2.head?
        = if p.name == "" || p.price == 0 then none else some (.insertProduct p))
    ∧ ((handleAddProduct p insertFails).1
        = if p.name == "" || p.price == 0
          then [.error "Please fill in required fields"]
          else if insertFails then [.error "Failed to add product"]
          else [.success "Product added successfully"]) := by
  by_cases h : (p.name == "" || p.price == 0) = true <;>
    cases insertFails <;>
      simp [handleAddProduct, h]

end Storefront

namespace Storefront

/-- Minimal model of the authenticated user object supplied by `useAuth`. -/
structure User where
  uid : String
deriving Repr, DecidableEq

/-- What a route gate renders: the loading spinner (Pending), a
`<Navigate to=target />` redirect (Deny), or its children (Allow). -/
inductive RouteOutcome
  | spinner
  | redirect (target : String)
  | content
deriving Repr, DecidableEq

def RouteOutcome.isSpinner : RouteOutcome → Bool
  | .spinner => true
  | _ => false

def RouteOutcome.isRedirect : RouteOutcome → Bool
  | .redirect _ => true
  | _ => false

/-- `ProtectedRoute` (App.tsx lines 33–49): spinner while loading, redirect
to `/auth` when no user is bound, otherwise the children. -/
def ProtectedRoute (user : Option User) (loading : Bool) : RouteOutcome :=
  if loading then .spinner
  else if user.isNone then .redirect "/auth"
  else .content

/-- `AdminRoute` (App.tsx lines 51–67): spinner while loading, redirect to
`/` when no user is bound or the user is not an administrator, otherwise
the children. -/
def AdminRoute (user : Option User) (isAdmin : Bool) (loading : Bool) : RouteOutcome :=
  if loading then .spinner
  else if user.isNone || !isAdmin then .redirect "/"
  else .content

/-- The `/auth` route element (App.tsx lines 117–120): a bound user is
redirected home, otherwise the auth page renders. -/
def authRouteElement (user : Option User) : RouteOutcome :=
  if user.isSome then .redirect "/" else .content

/-- Admin-only record sets fetched by the admin page. -/
inductive FetchTarget
  | products
  | orders
deriving Repr, DecidableEq

/-- The `AdminPage` mount effect (AdminPage.tsx lines 87–92): fetch the
admin-only record sets only when `isAdmin` holds. -/
def adminPageFetches (isAdmin : Bool) : List FetchTarget :=
  if isAdmin then [.products, .orders] else []

end Storefront

namespace Storefront

/-- C6: for both gates the outcome is the Pending spinner iff the session
store's loading flag is set, and a Pending outcome is never the redirect a
Deny produces. -/
theorem gate_pending_iff_loading (user : Option User) (isAdmin loading : Bool) :
    (ProtectedRoute user loading).isSpinner = loading
    ∧ (AdminRoute user isAdmin loading).isSpinner = loading
    ∧ (ProtectedRoute user true).isRedirect = false
    ∧ (AdminRoute user isAdmin true).isRedirect = false := by
  cases user <;> cases isAdmin <;> cases loading <;>
    simp [ProtectedRoute, AdminRoute, RouteOutcome.isSpinner, RouteOutcome.isRedirect]

/-- C7: a denied Authenticated-tier evaluation redirects to the login
page, a denied Administrator-tier evaluation redirects home (whether the
identity is a non-administrator account or absent), and the admin page
fetches none of the admin-only record sets for a non-administrator. -/
theorem deny_redirects_to_fallback (u : User) (isAdmin : Bool) :
    ProtectedRoute none false = .redirect "/auth"
    ∧ AdminRoute (some u) false false = .redirect "/"
    ∧ AdminRoute none isAdmin false = .redirect "/"
    ∧ adminPageFetches false = []
    ∧ adminPageFetches true = [.products, .orders] := by
  cases isAdmin <;> simp [ProtectedRoute, AdminRoute, adminPageFetches]

end Storefront

namespace Storefront

/-- The auth form state (AuthPage.tsx lines 34–38). -/
structure FormData where
  name : String
  email : String
  password : String
deriving Repr, DecidableEq

/-- External Session Store calls dispatched by `handleSubmit`. -/
inductive AuthCall
  | signUpCall (email password displayName : String)
  | signInCall (email password : String)
deriving Repr, DecidableEq

/-- Outcome of the awaited `signUp`/`signIn` call: resolved without error,
resolved with an `error` value, or rejected (caught by the `try`/`catch`). -/
inductive CallOutcome
  | ok
  | err
  | thrown
deriving Repr, DecidableEq

/-- `signupSchema` (AuthPage.tsx lines 12–16): name of at least 2
characters, valid email, password of at least 6 characters.  The email
regex lives in the external zod library, so email validity is the
parameter `emailOk`. -/
def signupValid (emailOk : String → Bool) (f : FormData) : Bool :=
  decide (2 ≤ f.name.length) && emailOk f.email && decide (6 ≤ f.password.length)

/-- `loginSchema` (AuthPage.tsx lines 18–21): valid email and a non-empty
password — no minimum length beyond 1. -/
def loginValid (emailOk : String → Bool) (f : FormData) : Bool :=
  emailOk f.email && decide (1 ≤ f.password.length)

/-- External calls and navigations performed by one form submission. -/
structure SubmitResult where
  calls : List AuthCall
  navigations : List String
deriving Repr, DecidableEq

/-- `handleSubmit` (AuthPage.tsx lines 49–108): local schema validation,
then the external call; `navigate('/')` is reached exactly once, only
after a successful call. -/
def handleSubmit (isSignup : Bool) (emailOk : String → Bool) (f : FormData)
    (outcome : CallOutcome) : SubmitResult :=
  if isSignup then
    if signupValid emailOk f then
      match outcome with
      | .ok => { calls := [.signUpCall f.email f.password f.name], navigations := ["/"] }
      | .err => { calls := [.signUpCall f.email f.password f.name], navigations := [] }
      | .thrown => { calls := [.signUpCall f.email f.password f.name], navigations := [] }
    else { calls := [], navigations := [] }
  else
    if loginValid emailOk f then
      match outcome with
      | .ok => { calls := [.signInCall f.email f.password], navigations := ["/"] }
      | .err => { calls := [.signInCall f.email f.password], navigations := [] }
      | .thrown => { calls := [.signInCall f.email f.password], navigations := [] }
    else { calls := [], navigations := [] }

end Storefront

namespace Storefront

/-- C9: a successful sign-up or sign-in submission issues exactly one
redirect, to home; any failed submission (schema rejection, call error, or
thrown exception) issues none; and the `/auth` route redirects home while
an account is bound to the session. -/
theorem auth_redirect_discipline (emailOk : String → Bool) (f : FormData) (u : User) :
    (handleSubmit true emailOk f .ok).navigations
        = (if signupValid emailOk f then ["/"] else [])
    ∧ (handleSubmit false emailOk f .ok).navigations
        = (if loginValid emailOk f then ["/"] else [])
    ∧ (handleSubmit true emailOk f .err).navigations = []
    ∧ (handleSubmit false emailOk f .err).navigations = []
    ∧ (handleSubmit true emailOk f .thrown).navigations = []
    ∧ (handleSubmit false emailOk f .thrown).navigations = []
    ∧ authRouteElement (some u) = .redirect "/" := by
  by_cases h1 : signupValid emailOk f = true <;>
    by_cases h2 : loginValid emailOk f = true <;>
      simp [handleSubmit, authRouteElement, h1, h2]

/-- C10: the six-character password minimum is enforced locally only on
sign-up: a sign-in submission with a valid email and a password of 1 to 5
characters is not rejected locally but forwarded to the external `signIn`
call, while the same form data submitted as a sign-up dispatches no
external call. -/
theorem login_password_policy (emailOk : String → Bool) (f : FormData)
    (out : CallOutcome) (hemail : emailOk f.email = true)
    (hlen1 : 1 ≤ f.password.length) (hlen5 : f.password.length ≤ 5) :
    (handleSubmit false emailOk f out).calls = [.signInCall f.email f.password]
    ∧ (handleSubmit true emailOk f out).calls = [] := by
  have hlogin : loginValid emailOk f = true := by
    simp [loginValid, hemail, hlen1]
  have hshort : ¬ (6 ≤ f.password.length) := by omega
  have hsign : signupValid emailOk f = false := by
    simp [signupValid, hshort]
  cases out <;> simp [handleSubmit, hlogin, hsign]

/-- Witness for C10 at a concrete short-password sign-in form. -/
theorem login_password_policy_witness :
    (handleSubmit false (fun s => s == "asha@x.com")
        { name := "Asha", email := "asha@x.com", password := "abc" } .ok).calls
      = [.signInCall "asha@x.com" "abc"]
    ∧ (handleSubmit true (fun s => s == "asha@x.com")
        { name := "Asha", email := "asha@x.com", password := "abc" } .ok).calls = [] :=
  login_password_policy (fun s => s == "asha@x.com")
    { name := "Asha", email := "asha@x.com", password := "abc" } .ok
    (by decide) (by decide) (by decide)

end Storefront
